import Mathlib

/-!
Shallow embedding of `src/Resume_parser.py` (Pydantic `ResumeData` schema,
`calculate_resume_score`, `extract_text_from_pdf`, and the "Analyze & Score
Resume" button handler), together with theorems settling the frozen claims.

Modelling conventions:
* Python `float` values are modelled as exact rationals (`ℚ`); the rounding
  `round(x, 2)` is modelled as exact round-half-to-even on the rational value.
* Python strings are Lean `String`s; `str.lower()` is modelled with the
  ASCII `Char.toLower` and `str.strip()` strips `Char.isWhitespace` from both
  ends (the claims only involve ASCII data).
* The code calls the Pydantic **v2** API (`model_validate`,
  `model_json_schema`), so validation is modelled with Pydantic v2 semantics:
  a field with no default — including `Optional[str]` — is required; `str`
  fields accept exactly JSON strings (empty ones included); `float` fields
  accept numbers and numeric strings in lax mode; extra keys are ignored.
  Pydantic collects all field errors, here only the first is reported; the
  success/failure behaviour and the produced record are the same.
-/

set_option maxRecDepth 4000

namespace ResumeParser

/-- Python `str.lower()` (ASCII model). -/
def pyLower (s : String) : String := (s.data.map Char.toLower).asString

/-- Python `str.strip()`: remove whitespace from both ends. -/
def pyStrip (s : String) : String :=
  (((s.data.dropWhile Char.isWhitespace).reverse.dropWhile Char.isWhitespace).reverse).asString

/-- Boolean test that `needle` occurs contiguously inside `hay` (lists). -/
def listInfixOf (needle : List Char) : List Char → Bool
  | [] => needle.isEmpty
  | c :: t => needle.isPrefixOf (c :: t) || listInfixOf needle t

/-- Python `needle in hay` on strings (contiguous-substring test). -/
def containsSubstr (hay needle : String) : Bool :=
  listInfixOf needle.toList hay.toList

/-- The Pydantic model `ResumeData` (src/Resume_parser.py lines 16–27):
name, email, highest_degree are `str`; phone is `Optional[str]`;
total_years_experience is `float` (modelled as `ℚ`); skills_list is
`List[str]`. None of the fields has a default value. -/
structure ResumeData where
  name : String
  email : String
  phone : Option String
  total_years_experience : ℚ
  highest_degree : String
  skills_list : List String
deriving DecidableEq

/-- Round-half-to-even to an integer (Python's `round` on an exact value). -/
def roundHalfEven (x : ℚ) : ℤ :=
  if x - x.floor < 1/2 then x.floor
  else if 1/2 < x - x.floor then x.floor + 1
  else if x.floor % 2 = 0 then x.floor else x.floor + 1

/-- Python `round(q, 2)` on the exact rational value. -/
def pyRound2 (q : ℚ) : ℚ := (roundHalfEven (q * 100) : ℚ) / 100

/-- The inner loop of the skill-match block (lines 42–44): each required
skill whose `lower()` occurs in the pre-lowered-and-stripped record skill
list adds `per` points. -/
def skillMatchScore (parsedSkillsLower : List String) (per : ℚ) : List String → ℚ
  | [] => 0
  | sk :: rest =>
      (if pyLower sk ∈ parsedSkillsLower then per else 0)
        + skillMatchScore parsedSkillsLower per rest

/-- Skill-match component (lines 34–46): 0 when `required_skills` is empty;
otherwise `min(Σ matches · 40/n, 40)` where the record's skills are
lowered **and stripped** but each required skill is only lowered. -/
def skillComponent (parsed_data : ResumeData) (required_skills : List String) : ℚ :=
  if required_skills.isEmpty then 0
  else
    min (skillMatchScore (parsed_data.skills_list.map (fun s => pyStrip (pyLower s)))
          (40 / (required_skills.length : ℚ)) required_skills) 40

/-- Experience component (lines 48–54): full 30 when
`total_years_experience >= 5.0`, otherwise `(years / 5.0) * (30.0 * 0.8)`. -/
def experienceComponent (total_years_experience : ℚ) : ℚ :=
  if 5 ≤ total_years_experience then 30
  else (total_years_experience / 5) * (30 * (8/10))

/-- Master-tier degree substrings (line 58). -/
def masterSubstrings : List String := ["Master", "M.S.", "MS", "MBA", "PhD", "Ph.D."]

/-- Education component (lines 56–62): 20 on a Master-tier case-sensitive
substring, else 10 on a Bachelor-tier one, else 0. -/
def educationComponent (highest_degree : String) : ℚ :=
  if masterSubstrings.any (fun deg => containsSubstr highest_degree deg) then 20
  else if containsSubstr highest_degree "Bachelor" || containsSubstr highest_degree "B.S."
      || containsSubstr highest_degree "B.Tech" then 10
  else 0

/-- Completeness component (lines 64–70); Python truthiness: an empty or
absent string is falsy, experience must be strictly positive. -/
def completenessComponent (parsed_data : ResumeData) : ℚ :=
  (if parsed_data.name.isEmpty then 0 else 3)
    + (if parsed_data.email.isEmpty then 0 else 3)
    + (match parsed_data.phone with
       | none => 0
       | some p => if p.isEmpty then 0 else 2)
    + (if 0 < parsed_data.total_years_experience then 2 else 0)

/-- Function `calculate_resume_score` (lines 29–73): sum of the four components,
capped at 100, rounded to 2 decimals. -/
def calculate_resume_score (parsed_data : ResumeData) (required_skills : List String) : ℚ :=
  pyRound2 (min
    (skillComponent parsed_data required_skills
      + experienceComponent parsed_data.total_years_experience
      + educationComponent parsed_data.highest_degree
      + completenessComponent parsed_data) 100)

/-! ### JSON values and Pydantic-v2 validation -/

/-- JSON values, the shape `json.loads` hands to `ResumeData.model_validate`. -/
inductive Json where
  | null : Json
  | str : String → Json
  | num : ℚ → Json
  | bool : Bool → Json
  | arr : List Json → Json
  | obj : List (String × Json) → Json

/-- Lax parse of a numeric string (sign, digits, optional decimal part) —
the Pydantic v2 string-to-float coercion, restricted to plain decimals. -/
def parseDigits : List Char → Option ℕ
  | [] => none
  | cs =>
      if cs.all Char.isDigit then
        some (cs.foldl (fun a c => a * 10 + (c.toNat - 48)) 0)
      else none

def parseDecimal (s : String) : Option ℚ :=
  let signed : ℚ × List Char :=
    match s.toList with
    | '-' :: t => (-1, t)
    | '+' :: t => (1, t)
    | t => (1, t)
  match (List.splitOn '.' signed.2) with
  | [intPart] => (parseDigits intPart).map (fun n => signed.1 * n)
  | [intPart, fracPart] =>
      match parseDigits intPart, parseDigits fracPart with
      | some i, some f =>
          some (signed.1 * ((i : ℚ) + (f : ℚ) / (10 : ℚ) ^ fracPart.length))
      | _, _ => none
  | _ => none

/-- Required `str` field: present and a JSON string (Pydantic v2 does not
coerce numbers to `str`; a missing key is an error because the field has
no default). -/
def validateStrField (fields : List (String × Json)) (key : String) : Except String String :=
  match fields.lookup key with
  | some (Json.str s) => Except.ok s
  | some _ => Except.error (key ++ ": Input should be a valid string")
  | none => Except.error (key ++ ": Field required")

/-- Field of type `Optional[str]` with **no default** (the source's `phone`): under
Pydantic v2 the key must still be present; only an explicit `null` maps to
`None`. -/
def validateOptStrField (fields : List (String × Json)) (key : String) :
    Except String (Option String) :=
  match fields.lookup key with
  | some (Json.str s) => Except.ok (some s)
  | some Json.null => Except.ok none
  | some _ => Except.error (key ++ ": Input should be a valid string")
  | none => Except.error (key ++ ": Field required")

/-- Required `float` field (lax mode): a JSON number, or a numeric string;
`null`, booleans, arrays, objects and a missing key are errors. -/
def validateFloatField (fields : List (String × Json)) (key : String) : Except String ℚ :=
  match fields.lookup key with
  | some (Json.num q) => Except.ok q
  | some (Json.str s) =>
      match parseDecimal (pyStrip s) with
      | some q => Except.ok q
      | none => Except.error (key ++ ": Input should be a valid number")
  | some _ => Except.error (key ++ ": Input should be a valid number")
  | none => Except.error (key ++ ": Field required")

def validateStrElems : List Json → Except String (List String)
  | [] => Except.ok []
  | Json.str s :: rest => (validateStrElems rest).map (fun l => s :: l)
  | _ :: _ => Except.error "skills_list: Input should be a valid string"

/-- Required `List[str]` field: a JSON array whose elements are all strings. -/
def validateStrListField (fields : List (String × Json)) (key : String) :
    Except String (List String) :=
  match fields.lookup key with
  | some (Json.arr xs) => validateStrElems xs
  | some _ => Except.error (key ++ ": Input should be a valid list")
  | none => Except.error (key ++ ": Field required")

/-- Validation `ResumeData.model_validate` on a JSON object (field set of lines 16–27,
Pydantic v2 semantics). -/
def validateResumeData (fields : List (String × Json)) : Except String ResumeData :=
  match validateStrField fields "name" with
  | Except.error e => Except.error e
  | Except.ok name =>
    match validateStrField fields "email" with
    | Except.error e => Except.error e
    | Except.ok email =>
      match validateOptStrField fields "phone" with
      | Except.error e => Except.error e
      | Except.ok phone =>
        match validateFloatField fields "total_years_experience" with
        | Except.error e => Except.error e
        | Except.ok years =>
          match validateStrField fields "highest_degree" with
          | Except.error e => Except.error e
          | Except.ok degree =>
            match validateStrListField fields "skills_list" with
            | Except.error e => Except.error e
            | Except.ok skills =>
                Except.ok ⟨name, email, phone, years, degree, skills⟩

/-! ### Claim C1 -/

/-- The C1 raw mapping; the spec's field `skills` is the source schema's
`skills_list`. -/
def janeRaw : List (String × Json) :=
  [("name", Json.str "Jane Doe"), ("email", Json.str "jane@x.com"),
   ("phone", Json.null), ("total_years_experience", Json.num 6),
   ("highest_degree", Json.str "M.S. in CS"),
   ("skills_list", Json.arr [Json.str "Python", Json.str "AWS"])]

def janeRecord : ResumeData :=
  ⟨"Jane Doe", "jane@x.com", none, 6, "M.S. in CS", ["Python", "AWS"]⟩

/-- C1: the raw mapping with name "Jane Doe", email "jane@x.com", null phone,
6.0 years, degree "M.S. in CS" and skills ["Python", "AWS"] validates into a
record which, scored against ["Python", "AWS", "SQL"], yields exactly 84.67,
with skill component 2/3 of 40, experience 30, education 20, completeness 8. -/
theorem C1_jane_end_to_end :
    validateResumeData janeRaw = Except.ok janeRecord ∧
    skillComponent janeRecord ["Python", "AWS", "SQL"] = 80/3 ∧
    experienceComponent janeRecord.total_years_experience = 30 ∧
    educationComponent janeRecord.highest_degree = 20 ∧
    completenessComponent janeRecord = 8 ∧
    calculate_resume_score janeRecord ["Python", "AWS", "SQL"] = 8467/100 := by
  have h1 : skillComponent janeRecord ["Python", "AWS", "SQL"] = 80/3 := by
    with_unfolding_all decide
  have h2 : experienceComponent janeRecord.total_years_experience = 30 := by
    with_unfolding_all decide
  have h3 : educationComponent janeRecord.highest_degree = 20 := by decide
  have h4 : completenessComponent janeRecord = 8 := by with_unfolding_all decide
  refine ⟨rfl, h1, h2, h3, h4, ?_⟩
  show pyRound2 (min
    (skillComponent janeRecord ["Python", "AWS", "SQL"]
      + experienceComponent janeRecord.total_years_experience
      + educationComponent janeRecord.highest_degree
      + completenessComponent janeRecord) 100) = 8467/100
  rw [h1, h2, h3, h4]
  have harg : min ((80/3 : ℚ) + 30 + 20 + 8) 100 = 254/3 := by
    with_unfolding_all decide
  have hr : roundHalfEven ((254/3 : ℚ) * 100) = 8467 := by
    with_unfolding_all decide
  unfold pyRound2
  rw [harg, hr]
  norm_num

/-! ### Claim C3 -/

/-- C3: the experience component equals 30 if and only if
total_years_experience ≥ 5.0; below 5.0 it equals (years / 5.0) · 24.0
exactly, so a below-target candidate never earns more than 80 % of the
experience weight (at most 24 of 30 points). -/
theorem C3_experience_component (years : ℚ) :
    (experienceComponent years = 30 ↔ 5 ≤ years) ∧
    (years < 5 →
      experienceComponent years = years / 5 * 24 ∧ experienceComponent years ≤ 24) := by
  constructor
  · constructor
    · intro h
      by_contra hlt
      push_neg at hlt
      rw [experienceComponent, if_neg (not_le.mpr hlt)] at h
      have : years = 25/4 := by linarith
      linarith
    · intro h
      rw [experienceComponent, if_pos h]
  · intro hlt
    rw [experienceComponent, if_neg (not_le.mpr hlt)]
    constructor
    · ring
    · linarith

/-- Witness for C3 at years = 2.5: the component is (2.5/5)·24 = 12 ≤ 24. -/
theorem C3_experience_witness :
    experienceComponent (5/2) = (5/2) / 5 * 24 ∧ experienceComponent (5/2) ≤ 24 ∧
      experienceComponent (5/2) = 12 := by
  have h := (C3_experience_component (5/2)).2 (by norm_num)
  exact ⟨h.1, h.2, by rw [h.1]; norm_num⟩

/-! ### Claim C5 -/

/-- C5: the education component is one of 0, 10, 20; it is 20 exactly when a
Master-tier case-sensitive substring occurs in the degree text; it is 10
exactly when no Master-tier substring occurs but a Bachelor-tier one does;
and when both tiers occur, only the Master tier (20) applies. -/
theorem C5_education_tiers (d : String) :
    (educationComponent d = 0 ∨ educationComponent d = 10 ∨ educationComponent d = 20) ∧
    (educationComponent d = 20 ↔
      masterSubstrings.any (fun deg => containsSubstr d deg) = true) ∧
    (educationComponent d = 10 ↔
      (masterSubstrings.any (fun deg => containsSubstr d deg) = false ∧
        (containsSubstr d "Bachelor" || containsSubstr d "B.S."
          || containsSubstr d "B.Tech") = true)) ∧
    (masterSubstrings.any (fun deg => containsSubstr d deg) = true →
      (containsSubstr d "Bachelor" || containsSubstr d "B.S."
        || containsSubstr d "B.Tech") = true →
      educationComponent d = 20) := by
  unfold educationComponent
  cases hm : masterSubstrings.any (fun deg => containsSubstr d deg) <;>
    cases hb : (containsSubstr d "Bachelor" || containsSubstr d "B.S."
      || containsSubstr d "B.Tech") <;>
    simp [hm, hb]

/-- Witness for C5: a degree text containing both "Master" and "Bachelor"
gets the Master tier, 20 points. -/
theorem C5_education_witness :
    educationComponent "Master of Science, Bachelor of Arts" = 20 :=
  (C5_education_tiers "Master of Science, Bachelor of Arts").2.2.2 (by decide) (by decide)

/-! ### Claims C6 and C7 (validation of missing fields) -/

/-- A raw mapping with every field of the schema except
total_years_experience. -/
def rawMissingYears : List (String × Json) :=
  [("name", Json.str "Jane Doe"), ("email", Json.str "jane@x.com"),
   ("phone", Json.null), ("highest_degree", Json.str "B.S. in CS"),
   ("skills_list", Json.arr [Json.str "Python"])]

/-- The same mapping with a non-numeric total_years_experience. -/
def rawUnparseableYears : List (String × Json) :=
  ("total_years_experience", Json.str "unknown") :: rawMissingYears

/-- C6 (code evaluated at the failing inputs): the field
total_years_experience has no Pydantic default, so a raw mapping missing it,
or carrying a non-numeric string for it, is rejected by validation instead
of defaulting to 0.0 — contradicting the field's own description
"Default to 0.0 if not found". -/
theorem C6_years_never_defaults :
    validateResumeData rawMissingYears
        = Except.error "total_years_experience: Field required" ∧
    validateResumeData rawUnparseableYears
        = Except.error "total_years_experience: Input should be a valid number" :=
  ⟨rfl, rfl⟩

/-- A fully valid raw mapping except that the key "phone" is absent. -/
def rawMissingPhone : List (String × Json) :=
  [("name", Json.str "Jane Doe"), ("email", Json.str "jane@x.com"),
   ("total_years_experience", Json.num 6),
   ("highest_degree", Json.str "M.S."),
   ("skills_list", Json.arr [Json.str "Python"])]

/-- C7 (code evaluated at the failing input): `phone: Optional[str]` has no
default, so under the Pydantic v2 API the code uses, a raw mapping without
the "phone" key fails validation; only an explicit null phone maps to the
not-provided record. -/
theorem C7_missing_phone_rejected :
    validateResumeData rawMissingPhone = Except.error "phone: Field required" ∧
    validateResumeData (("phone", Json.null) :: rawMissingPhone)
        = Except.ok ⟨"Jane Doe", "jane@x.com", none, 6, "M.S.", ["Python"]⟩ :=
  ⟨rfl, rfl⟩

/-! ### Claim C9 (empty name/email) -/

/-- A raw mapping whose name and email are the empty string. -/
def rawEmptyNameEmail : List (String × Json) :=
  [("name", Json.str ""), ("email", Json.str ""), ("phone", Json.null),
   ("total_years_experience", Json.num 0), ("highest_degree", Json.str ""),
   ("skills_list", Json.arr [])]

/-- Counterexample to C9: validation succeeds on empty name and email —
the schema constrains them only to be present strings, not non-empty. -/
theorem C9_empty_strings_accepted :
    validateResumeData rawEmptyNameEmail = Except.ok ⟨"", "", none, 0, "", []⟩ :=
  rfl

/-- Helper: a succeeding required-string field means the key was present
with a JSON string value. -/
theorem validateStrField_ok {fields : List (String × Json)} {key s : String}
    (h : validateStrField fields key = Except.ok s) :
    fields.lookup key = some (Json.str s) := by
  unfold validateStrField at h
  split at h <;> first
  | exact Except.noConfusion h
  | (cases h; assumption)

/-- C9 amended: name and email are not checked for non-emptiness; what
validation does enforce is that each is present and string-typed, so any
successfully validated record took its name and email verbatim from JSON
string values present in the raw mapping (possibly empty). -/
theorem C9_name_email_present_and_string (fields : List (String × Json))
    (r : ResumeData) (h : validateResumeData fields = Except.ok r) :
    fields.lookup "name" = some (Json.str r.name) ∧
    fields.lookup "email" = some (Json.str r.email) := by
  rcases h1 : validateStrField fields "name" with e | nm <;>
    simp [validateResumeData, h1] at h
  rcases h2 : validateStrField fields "email" with e | em <;> simp [h2] at h
  rcases h3 : validateOptStrField fields "phone" with e | ph <;> simp [h3] at h
  rcases h4 : validateFloatField fields "total_years_experience" with e | ys <;>
    simp [h4] at h
  rcases h5 : validateStrField fields "highest_degree" with e | dg <;> simp [h5] at h
  rcases h6 : validateStrListField fields "skills_list" with e | sk <;> simp [h6] at h
  subst h
  exact ⟨validateStrField_ok h1, validateStrField_ok h2⟩

/-- Witness for C9's amended theorem at the Jane Doe mapping. -/
theorem C9_witness :
    janeRaw.lookup "name" = some (Json.str janeRecord.name) ∧
    janeRaw.lookup "email" = some (Json.str janeRecord.email) :=
  C9_name_email_present_and_string janeRaw janeRecord rfl

/-! ### Claim C4 (skill-match component) -/

/-- The skill-match loop adds `per` once per required skill whose lowered
form occurs in the pre-processed record-skill list. -/
theorem skillMatchScore_eq_countP (pl : List String) (per : ℚ) (req : List String) :
    skillMatchScore pl per req
      = per * (req.countP (fun sk => decide (pyLower sk ∈ pl)) : ℚ) := by
  induction req with
  | nil => simp [skillMatchScore]
  | cons sk rest ih =>
      rw [skillMatchScore, ih, List.countP_cons]
      by_cases hm : pyLower sk ∈ pl
      · simp [hm]
        ring
      · simp [hm]

/-- A record with one skill, "Python" (no surrounding whitespace). -/
def pythonRecord : ResumeData := ⟨"Ann", "a@b.c", none, 0, "", ["Python"]⟩

/-- Counterexample to C4: the required skill " Python" (leading blank) does
match the record entry "Python" under case-insensitive whitespace-trimmed
comparison — its trimmed lowered form occurs among the trimmed lowered
record skills — yet the code contributes nothing for it: the code trims
only the record's skills, never the required skill, so the component is 0,
not 40. -/
theorem C4_untrimmed_required_skill :
    pyStrip (pyLower " Python")
        ∈ pythonRecord.skills_list.map (fun s => pyStrip (pyLower s)) ∧
    skillComponent pythonRecord [" Python"] = 0 := by
  constructor
  · decide
  · with_unfolding_all decide

/-- C4 amended: with an empty required list the component is 0; with n > 0
required skills it lies in [0, 40] and equals (40/n) times the number of
required skills whose **lowered (untrimmed)** form occurs among the
record's lowered-and-trimmed skills, and it equals 40 iff every required
skill so matches. -/
theorem C4_skill_component (p : ResumeData) (req : List String) :
    (req = [] → skillComponent p req = 0) ∧
    (req ≠ [] →
      (0 ≤ skillComponent p req ∧ skillComponent p req ≤ 40) ∧
      skillComponent p req
        = (40 / (req.length : ℚ))
            * (req.countP (fun sk =>
                decide (pyLower sk
                  ∈ p.skills_list.map (fun s => pyStrip (pyLower s)))) : ℚ) ∧
      (skillComponent p req = 40 ↔
        ∀ sk ∈ req,
          pyLower sk ∈ p.skills_list.map (fun s => pyStrip (pyLower s)))) := by
  constructor
  · intro h
    subst h
    rfl
  · intro hne
    have hn : (0:ℚ) < (req.length : ℚ) := by
      exact_mod_cast List.length_pos.mpr hne
    have hcle : ((req.countP (fun sk =>
        decide (pyLower sk ∈ p.skills_list.map (fun s => pyStrip (pyLower s))))) : ℚ)
        ≤ (req.length : ℚ) := by
      exact_mod_cast req.countP_le_length _
    have hbody : skillComponent p req
        = min ((40 / (req.length : ℚ))
            * (req.countP (fun sk =>
                decide (pyLower sk
                  ∈ p.skills_list.map (fun s => pyStrip (pyLower s)))) : ℚ)) 40 := by
      rw [skillComponent, if_neg (by simp [hne]), skillMatchScore_eq_countP]
    have hle40 : (40 / (req.length : ℚ))
        * (req.countP (fun sk =>
            decide (pyLower sk
              ∈ p.skills_list.map (fun s => pyStrip (pyLower s)))) : ℚ) ≤ 40 := by
      rw [div_mul_eq_mul_div, div_le_iff₀ hn]
      nlinarith
    have h0 : 0 ≤ (40 / (req.length : ℚ))
        * (req.countP (fun sk =>
            decide (pyLower sk
              ∈ p.skills_list.map (fun s => pyStrip (pyLower s)))) : ℚ) := by
      positivity
    refine ⟨⟨?_, ?_⟩, ?_, ?_⟩
    · rw [hbody]
      exact le_min h0 (by norm_num)
    · rw [hbody]
      exact min_le_right _ _
    · rw [hbody, min_eq_left hle40]
    · rw [hbody, min_eq_left hle40]
      constructor
      · intro h
        rw [div_mul_eq_mul_div, div_eq_iff (ne_of_gt hn)] at h
        have hcn : ((req.countP (fun sk =>
            decide (pyLower sk
              ∈ p.skills_list.map (fun s => pyStrip (pyLower s))))) : ℚ)
            = (req.length : ℚ) := by linarith
        have hc : req.countP (fun sk =>
            decide (pyLower sk ∈ p.skills_list.map (fun s => pyStrip (pyLower s))))
            = req.length := by
          exact_mod_cast hcn
        intro sk hsk
        have := List.countP_eq_length.mp hc sk hsk
        simpa using this
      · intro hall
        have hc : req.countP (fun sk =>
            decide (pyLower sk ∈ p.skills_list.map (fun s => pyStrip (pyLower s))))
            = req.length :=
          List.countP_eq_length.mpr (fun sk hsk => by simpa using hall sk hsk)
        rw [hc]
        field_simp

/-- Witness for C4's amended theorem: the empty case at `[]` and the
positive case at the one-skill list ["Python"] against the Jane record. -/
theorem C4_skill_witness :
    skillComponent janeRecord [] = 0 ∧
    ((0 ≤ skillComponent janeRecord ["Python"] ∧
        skillComponent janeRecord ["Python"] ≤ 40) ∧
      skillComponent janeRecord ["Python"]
        = (40 / ((["Python"] : List String).length : ℚ))
            * ((["Python"] : List String).countP (fun sk =>
                decide (pyLower sk
                  ∈ janeRecord.skills_list.map (fun s => pyStrip (pyLower s)))) : ℚ) ∧
      (skillComponent janeRecord ["Python"] = 40 ↔
        ∀ sk ∈ (["Python"] : List String),
          pyLower sk ∈ janeRecord.skills_list.map (fun s => pyStrip (pyLower s)))) :=
  ⟨(C4_skill_component janeRecord []).1 rfl,
   (C4_skill_component janeRecord ["Python"]).2 (by decide)⟩

/-! ### Claim C2 (score range) -/

theorem skillComponent_nonneg (p : ResumeData) (req : List String) :
    0 ≤ skillComponent p req := by
  rcases req with _ | ⟨sk, rest⟩
  · simp [skillComponent]
  · rw [skillComponent, if_neg (by simp), skillMatchScore_eq_countP]
    refine le_min ?_ (by norm_num)
    positivity

theorem skillComponent_le_forty (p : ResumeData) (req : List String) :
    skillComponent p req ≤ 40 := by
  rcases req with _ | ⟨sk, rest⟩
  · simp [skillComponent]
  · rw [skillComponent, if_neg (by simp)]
    exact min_le_right _ _

theorem experienceComponent_le_thirty (y : ℚ) : experienceComponent y ≤ 30 := by
  rw [experienceComponent]
  split_ifs with h
  · exact le_refl _
  · have hy : y < 5 := not_le.mp h
    linarith

theorem experienceComponent_nonneg {y : ℚ} (h : 0 ≤ y) :
    0 ≤ experienceComponent y := by
  rw [experienceComponent]
  split_ifs with h5
  · norm_num
  · have h24 : (0:ℚ) ≤ 30 * (8/10) := by norm_num
    exact mul_nonneg (div_nonneg h (by norm_num)) h24

theorem educationComponent_bounds (d : String) :
    0 ≤ educationComponent d ∧ educationComponent d ≤ 20 := by
  rw [educationComponent]
  split_ifs <;> norm_num

theorem completenessComponent_bounds (p : ResumeData) :
    0 ≤ completenessComponent p ∧ completenessComponent p ≤ 10 := by
  rw [completenessComponent]
  cases hp : p.phone <;> split_ifs <;> norm_num <;> split_ifs <;> norm_num

/-- The Batteries floor on ℚ agrees with the Mathlib floor. -/
theorem ratFloor_eq_floor (q : ℚ) : q.floor = ⌊q⌋ := by
  rw [Rat.floor_def', Rat.floor_def]

theorem roundHalfEven_le {x : ℚ} {n : ℤ} (h : x ≤ (n:ℚ)) : roundHalfEven x ≤ n := by
  rw [roundHalfEven, ratFloor_eq_floor]
  have hfn : ⌊x⌋ ≤ n := by
    have := Int.floor_le_floor h
    simpa using this
  have hf : (⌊x⌋ : ℚ) ≤ x := Int.floor_le x
  split_ifs with h1 h2 h3
  · exact hfn
  · have hhalf : 1/2 ≤ x - ⌊x⌋ := not_lt.mp h1
    have hlt : (⌊x⌋:ℚ) < (n:ℚ) := by linarith
    have : ⌊x⌋ < n := by exact_mod_cast hlt
    omega
  · exact hfn
  · have hhalf : 1/2 ≤ x - ⌊x⌋ := not_lt.mp h1
    have hlt : (⌊x⌋:ℚ) < (n:ℚ) := by linarith
    have : ⌊x⌋ < n := by exact_mod_cast hlt
    omega

theorem le_roundHalfEven {x : ℚ} {n : ℤ} (h : (n:ℚ) ≤ x) : n ≤ roundHalfEven x := by
  rw [roundHalfEven, ratFloor_eq_floor]
  have hnf : n ≤ ⌊x⌋ := Int.le_floor.mpr h
  split_ifs <;> omega

theorem pyRound2_bounds {q : ℚ} (h0 : 0 ≤ q) (h1 : q ≤ 100) :
    0 ≤ pyRound2 q ∧ pyRound2 q ≤ 100 := by
  have hl : (0:ℤ) ≤ roundHalfEven (q * 100) := by
    refine le_roundHalfEven ?_
    push_cast
    nlinarith
  have hu : roundHalfEven (q * 100) ≤ (10000:ℤ) := by
    refine roundHalfEven_le ?_
    push_cast
    nlinarith
  unfold pyRound2
  constructor
  · exact div_nonneg (by exact_mod_cast hl) (by norm_num)
  · rw [div_le_iff₀ (by norm_num : (0:ℚ) < 100)]
    calc ((roundHalfEven (q * 100) : ℤ) : ℚ) ≤ ((10000:ℤ) : ℚ) := by exact_mod_cast hu
    _ = 100 * 100 := by norm_num

/-- A raw mapping carrying a negative experience value: nothing in the
schema forbids it (the field is a plain `float` with no `ge=0`). -/
def negYearsRaw : List (String × Json) :=
  [("name", Json.str ""), ("email", Json.str ""), ("phone", Json.null),
   ("total_years_experience", Json.num (-10)), ("highest_degree", Json.str ""),
   ("skills_list", Json.arr [])]

def negYearsRecord : ResumeData := ⟨"", "", none, -10, "", []⟩

/-- Counterexample to C2: a record the schema admits (validated from a raw
mapping with total_years_experience = -10) is scored -48, outside [0, 100]:
the experience branch (years/5)·24 is negative for negative years and no
lower clamp exists. -/
theorem C2_negative_experience_escapes_range :
    validateResumeData negYearsRaw = Except.ok negYearsRecord ∧
    calculate_resume_score negYearsRecord [] = -48 := by
  refine ⟨rfl, ?_⟩
  have hs : skillComponent negYearsRecord [] = 0 := rfl
  have he : experienceComponent negYearsRecord.total_years_experience = -48 := by
    with_unfolding_all decide
  have hd : educationComponent negYearsRecord.highest_degree = 0 := by decide
  have hc : completenessComponent negYearsRecord = 0 := by with_unfolding_all decide
  show pyRound2 (min
    (skillComponent negYearsRecord []
      + experienceComponent negYearsRecord.total_years_experience
      + educationComponent negYearsRecord.highest_degree
      + completenessComponent negYearsRecord) 100) = -48
  rw [hs, he, hd, hc]
  have harg : min ((0:ℚ) + -48 + 0 + 0) 100 = -48 := by with_unfolding_all decide
  have hr : roundHalfEven ((-48 : ℚ) * 100) = -4800 := by with_unfolding_all decide
  unfold pyRound2
  rw [harg, hr]
  norm_num

/-- C2 amended: for every record with non-negative total_years_experience
(the spec's data model declares the field non-negative, but the code does
not enforce it) and every required-skill list, the score lies in [0, 100];
and the scoring function is deterministic — equal inputs give equal
outputs. -/
theorem C2_score_range (r : ResumeData) (req : List String)
    (h : 0 ≤ r.total_years_experience) :
    (0 ≤ calculate_resume_score r req ∧ calculate_resume_score r req ≤ 100) ∧
    ∀ r2 req2, r2 = r → req2 = req →
      calculate_resume_score r2 req2 = calculate_resume_score r req := by
  constructor
  · have hs1 := skillComponent_nonneg r req
    have hs2 := skillComponent_le_forty r req
    have he1 := experienceComponent_nonneg h
    have he2 := experienceComponent_le_thirty r.total_years_experience
    have hd := educationComponent_bounds r.highest_degree
    have hc := completenessComponent_bounds r
    have hsum0 : 0 ≤ skillComponent r req
        + experienceComponent r.total_years_experience
        + educationComponent r.highest_degree + completenessComponent r := by
      linarith [hd.1, hc.1]
    have hsum100 : skillComponent r req
        + experienceComponent r.total_years_experience
        + educationComponent r.highest_degree + completenessComponent r ≤ 100 := by
      linarith [hd.2, hc.2]
    exact pyRound2_bounds (le_min hsum0 (by norm_num)) (min_le_right _ _)
  · intro r2 req2 h1 h2
    rw [h1, h2]

/-- Witness for C2's amended theorem at the Jane record. -/
theorem C2_score_range_witness :
    (0 ≤ calculate_resume_score janeRecord ["SQL"] ∧
      calculate_resume_score janeRecord ["SQL"] ≤ 100) ∧
    ∀ r2 req2, r2 = janeRecord → req2 = (["SQL"] : List String) →
      calculate_resume_score r2 req2 = calculate_resume_score janeRecord ["SQL"] :=
  C2_score_range janeRecord ["SQL"] (by decide)

/-! ### Claim C8 (the Analyze & Score button handler, lines 289–324) -/

/-- Function `extract_text_from_pdf` (lines 79–91): the text source's outcome is the
argument; any failure is swallowed and mapped to the empty string. -/
def extract_text_from_pdf (result : Except String String) : String :=
  match result with
  | Except.ok text => text
  | Except.error _ => ""

/-- Terminal outcomes of one press of the Analyze & Score Resume button. -/
inductive Outcome where
  | noApiKey : Outcome
  | noFile : Outcome
  | noSkills : Outcome
  | dbError : Outcome
  | clientError : Outcome
  | llmFailed : Outcome
  | validationError : String → Outcome
  | success : ResumeData → ℚ → Outcome
deriving DecidableEq

/-- Result of a handler run: the texts the structured-extraction service
was invoked on, and the terminal outcome. -/
structure HandlerResult where
  llmCalls : List String
  outcome : Outcome
deriving DecidableEq

/-- The button handler (lines 289–324): guard chain (API key, file,
skills, DB, client), then extraction, then the LLM call on whatever text
extraction produced, then Pydantic validation and scoring. `llm` returning
none models both an LLM/JSON failure and a falsy parsed object. -/
def analyzeHandler (groq_api_key : String) (uploaded_file : Option String)
    (required_skills : List String) (dbOk : Bool) (clientOk : Bool)
    (extractResult : Except String String)
    (llm : String → Option (List (String × Json))) : HandlerResult :=
  if groq_api_key = "" then ⟨[], Outcome.noApiKey⟩
  else match uploaded_file with
  | none => ⟨[], Outcome.noFile⟩
  | some _ =>
    if required_skills = [] then ⟨[], Outcome.noSkills⟩
    else if dbOk = false then ⟨[], Outcome.dbError⟩
    else if clientOk = false then ⟨[], Outcome.clientError⟩
    else
      match llm (extract_text_from_pdf extractResult) with
      | none => ⟨[extract_text_from_pdf extractResult], Outcome.llmFailed⟩
      | some parsed_json =>
        match validateResumeData parsed_json with
        | Except.error e =>
            ⟨[extract_text_from_pdf extractResult], Outcome.validationError e⟩
        | Except.ok parsed_data =>
            ⟨[extract_text_from_pdf extractResult],
              Outcome.success parsed_data
                (calculate_resume_score parsed_data required_skills)⟩

/-- Counterexample to C8: when text extraction fails, the failure is mapped
to empty text, but the pipeline does **not** halt with a no-input failure:
the structured-extraction service is invoked on the empty document (the
llmCalls list is [""]), and the run only fails afterwards because the
service returned nothing. -/
theorem C8_llm_invoked_on_empty_document :
    extract_text_from_pdf (Except.error "unreadable PDF") = "" ∧
    (analyzeHandler "key" (some "resume.pdf") ["Python"] true true
        (Except.error "unreadable PDF") (fun _ => none)).llmCalls = [""] ∧
    (analyzeHandler "key" (some "resume.pdf") ["Python"] true true
        (Except.error "unreadable PDF") (fun _ => none)).outcome = Outcome.llmFailed :=
  ⟨rfl, rfl, rfl⟩

/-- C8 amended: extraction failure is mapped to empty text, but there is no
empty-text gate: whenever the pre-checks pass (non-empty API key, a file,
a non-empty skill list, DB and client OK), the structured-extraction
service is invoked exactly once, on the extracted text — empty or not. -/
theorem C8_no_empty_text_gate (key f : String) (req : List String)
    (ext : Except String String) (llm : String → Option (List (String × Json)))
    (hkey : key ≠ "") (hreq : req ≠ []) :
    (analyzeHandler key (some f) req true true ext llm).llmCalls
      = [extract_text_from_pdf ext] := by
  rw [analyzeHandler, if_neg hkey]
  rw [if_neg hreq, if_neg (by simp), if_neg (by simp)]
  rcases hl : llm (extract_text_from_pdf ext) with _ | parsed
  · rfl
  · rcases hv : validateResumeData parsed with e | r <;> simp [hv]

/-- Witness for C8's amended theorem: with a failing extractor the service
is still called (on the empty text the failure was mapped to). -/
theorem C8_no_empty_text_gate_witness :
    (analyzeHandler "gsk_key" (some "cv.pdf") ["SQL"] true true
        (Except.error "boom") (fun t => some [("name", Json.str t)])).llmCalls
      = [extract_text_from_pdf (Except.error "boom")] :=
  C8_no_empty_text_gate "gsk_key" "cv.pdf" ["SQL"] (Except.error "boom")
    (fun t => some [("name", Json.str t)]) (by decide) (by decide)

/-! ### Claim C10 (permutation of the record's skill list) -/

theorem skillMatchScore_congr {pl1 pl2 : List String}
    (hmem : ∀ x, x ∈ pl1 ↔ x ∈ pl2) (per : ℚ) (req : List String) :
    skillMatchScore pl1 per req = skillMatchScore pl2 per req := by
  induction req with
  | nil => rfl
  | cons sk rest ih =>
      rw [skillMatchScore, skillMatchScore, ih, if_congr (hmem (pyLower sk)) rfl rfl]

/-- C10: the score is invariant under any permutation of the record's
skill list — skills only enter through a membership test. -/
theorem C10_score_invariant_under_skill_permutation (r : ResumeData)
    (sk2 : List String) (req : List String) (h : r.skills_list.Perm sk2) :
    calculate_resume_score { r with skills_list := sk2 } req
      = calculate_resume_score r req := by
  have hs : skillComponent { r with skills_list := sk2 } req = skillComponent r req := by
    rw [skillComponent, skillComponent]
    rcases req with _ | ⟨s, rest⟩
    · rfl
    · have hperm := (h.map (fun s => pyStrip (pyLower s))).symm
      rw [skillMatchScore_congr (fun x => hperm.mem_iff)]
  show pyRound2 (min
    (skillComponent { r with skills_list := sk2 } req
      + experienceComponent r.total_years_experience
      + educationComponent r.highest_degree
      + completenessComponent { r with skills_list := sk2 }) 100)
    = pyRound2 (min
    (skillComponent r req
      + experienceComponent r.total_years_experience
      + educationComponent r.highest_degree
      + completenessComponent r) 100)
  rw [hs]
  rfl

/-- Witness for C10: swapping Jane's two skills leaves her score unchanged. -/
theorem C10_witness :
    calculate_resume_score { janeRecord with skills_list := ["AWS", "Python"] }
        ["Python", "AWS", "SQL"]
      = calculate_resume_score janeRecord ["Python", "AWS", "SQL"] :=
  C10_score_invariant_under_skill_permutation janeRecord ["AWS", "Python"]
    ["Python", "AWS", "SQL"] (by decide)

end ResumeParser
